import Mathlib

/-!
Shallow embedding of the invoice-retrieval automation engine
(`src/ITC/web/job_manager.py`, `src/web_app.py`, `src/ITC/downloaders/base.py`,
`src/ITC/downloaders/rogers.py`, `src/ITC/downloaders/mhydro.py`) together with
theorems settling the specification claims about it.

Modelling conventions: Python machine state becomes explicit state passing;
fallible Python code (code that may raise) returns `Except String`; values that
Python's `datetime.now()` or `uuid4()` produce nondeterministically are passed
in as explicit parameters; browser/network effects are passed in as outcome
parameters describing what the external world did.
-/

namespace InvoiceRetrieval

/-! ## Job state model — `src/ITC/web/job_manager.py` -/

/-- Model of `JobStatus` enum (job_manager.py lines 11-16). -/
inductive JobStatus where
  | pending
  | running
  | completed
  | failed
deriving DecidableEq, Repr

/-- The `.value` strings of the Python enum members. -/
def JobStatus.value : JobStatus → String
  | .pending => "pending"
  | .running => "running"
  | .completed => "completed"
  | .failed => "failed"

/-- One entry of `Job.results`: the dict appended by `JobManager.add_result`
(job_manager.py lines 140-146). -/
structure ResultEntry where
  vendor : String
  account : Nat
  status : String
  filename : Option String
  error : Option String
deriving DecidableEq, Repr

/-- The job metadata dict built by `start_job` (web_app.py lines 293-299). -/
structure JobMetadata where
  mode : String
  vendor : Option String
  account : Option Int
  email_to : Option String
  requested_by : String
deriving DecidableEq, Repr

/-- Model of `Job` (job_manager.py lines 18-39).  Timestamps are abstracted to `Nat`
ticks supplied by the caller in place of `datetime.now()`. -/
structure Job where
  job_id : String
  status : JobStatus
  created_at : Nat
  started_at : Option Nat
  completed_at : Option Nat
  total_accounts : Nat
  completed_accounts : Nat
  current_vendor : Option String
  current_account : Option Nat
  results : List ResultEntry
  error_message : Option String
  metadata : JobMetadata
deriving DecidableEq, Repr

/-- Model of `Job.__init__` (job_manager.py lines 21-39). -/
def Job.new (job_id : String) (metadata : JobMetadata) (now : Nat) : Job where
  job_id := job_id
  status := .pending
  created_at := now
  started_at := none
  completed_at := none
  total_accounts := 0
  completed_accounts := 0
  current_vendor := none
  current_account := none
  results := []
  error_message := none
  metadata := metadata

/-- Model of `JobManager.mark_started` (job_manager.py lines 110-116): the
`update_job` call with `status=RUNNING, started_at=now`. -/
def markStarted (j : Job) (now : Nat) : Job :=
  { j with status := .running, started_at := some now }

/-- Model of `JobManager.mark_completed` (job_manager.py lines 118-124). -/
def markCompleted (j : Job) (now : Nat) : Job :=
  { j with status := .completed, completed_at := some now }

/-- Model of `JobManager.mark_failed` (job_manager.py lines 126-133). -/
def markFailed (j : Job) (error_message : String) (now : Nat) : Job :=
  { j with status := .failed, completed_at := some now,
           error_message := some error_message }

/-- The `update_job(job_id, total_accounts=...)` call of
`run_automation_job` (web_app.py line 132). -/
def setTotal (j : Job) (n : Nat) : Job :=
  { j with total_accounts := n }

/-- The `update_job(job_id, current_vendor=..., current_account=...)` call of
`run_automation_job` (web_app.py lines 140-144). -/
def setCurrent (j : Job) (vendor : String) (account : Nat) : Job :=
  { j with current_vendor := some vendor, current_account := some account }

/-- Model of `JobManager.add_result` (job_manager.py lines 135-149): appends one result
dict and increments `completed_accounts`. -/
def addResult (j : Job) (vendor : String) (account : Nat) (status : String)
    (filename : Option String) (error : Option String) : Job :=
  { j with results := j.results ++ [⟨vendor, account, status, filename, error⟩],
           completed_accounts := j.completed_accounts + 1 }

/-- The registry `JobManager.jobs` — the values of the `job_id -> Job` dict. -/
abbrev JobRegistry := List Job

/-- Model of `JobManager.has_active_job` (job_manager.py lines 91-97). -/
def hasActiveJob (jobs : JobRegistry) : Bool :=
  jobs.any (fun j => j.status = .pending || j.status = .running)

/-! ## Job status serializer — `Job.to_dict` (job_manager.py lines 42-70) -/

/-- Python's `round` on the exact rational value: round-half-to-even. -/
def pyRound (q : ℚ) : ℤ :=
  let f := ⌊q⌋
  let r := q - f
  if r < 1/2 then f
  else if 1/2 < r then f + 1
  else if Even f then f else f + 1

/-- The dictionary returned by `Job.to_dict`. -/
structure JobDict where
  job_id : String
  status : String
  created_at : Nat
  started_at : Option Nat
  completed_at : Option Nat
  total_accounts : Nat
  completed_accounts : Nat
  current_vendor : Option String
  current_account : Option Nat
  results : List ResultEntry
  error_message : Option String
  metadata : JobMetadata
  percent_complete : ℤ
  current_label : Option String
deriving Repr

/-- Model of `Job.to_dict` (job_manager.py lines 42-70).  `percent_complete` is guarded
by `if self.total_accounts > 0`; `current_label` requires a truthy
`current_vendor` (non-empty string) and a non-`None` `current_account`. -/
def Job.to_dict (j : Job) : JobDict where
  job_id := j.job_id
  status := j.status.value
  created_at := j.created_at
  started_at := j.started_at
  completed_at := j.completed_at
  total_accounts := j.total_accounts
  completed_accounts := j.completed_accounts
  current_vendor := j.current_vendor
  current_account := j.current_account
  results := j.results
  error_message := j.error_message
  metadata := j.metadata
  percent_complete :=
    if 0 < j.total_accounts then
      pyRound ((j.completed_accounts : ℚ) / (j.total_accounts : ℚ) * 100)
    else 0
  current_label :=
    match j.current_vendor, j.current_account with
    | some v, some a =>
        if v = "" then none
        else some (v.toUpper ++ " - Account #" ++ toString (a + 1))
    | _, _ => none

/-! ## Web orchestration — `src/web_app.py` -/

/-- Python whitespace test for `str.strip` (close enough for the ASCII
strings this system handles). -/
def pyIsSpace (c : Char) : Bool := c.isWhitespace

/-- Python `str.strip()`. -/
def pyStrip (s : String) : String :=
  ⟨((s.data.dropWhile pyIsSpace).reverse.dropWhile pyIsSpace).reverse⟩

/-- Python `str.rsplit(ch, 1)`: split at the last occurrence of `ch`
(the caller has checked `ch` occurs). -/
def rsplitOnce (ch : Char) (l : List Char) : List Char × List Char :=
  let rev := l.reverse
  let tailRev := rev.takeWhile (fun c => c ≠ ch)
  ((rev.drop (tailRev.length + 1)).reverse, tailRev.reverse)

/-- Model of `validate_email` (web_app.py lines 35-65).  Returns
`(is_valid, cleaned_email, error_message)`. -/
def validate_email (email : Option String) : Bool × Option String × Option String :=
  match email with
  | none => (true, none, none)
  | some e0 =>
    if e0 = "" then (true, none, none)
    else
      let e := pyStrip e0
      if e = "" then (true, none, none)
      else if ¬ e.data.contains '@' then
        (false, none, some "Email must contain '@'")
      else
        let parts := rsplitOnce '@' e.data
        let lcl := parts.1
        let domain := parts.2
        if lcl = [] then
          (false, none, some "Email must have characters before '@'")
        else if ¬ domain.contains '.' then
          (false, none, some "Email domain must contain '.'")
        else if domain.head? = some '.' ∨ domain.getLast? = some '.' then
          (false, none, some "Email domain cannot start or end with '.'")
        else
          (true, some e, none)

/-- One entry of the `VENDORS` configuration dict (web_app.py lines 68-81):
the `'accounts'` count.  The `'class'` field is the downloader whose behavior
is modelled by a `UnitOutcome` parameter below. -/
structure VendorConfig where
  accounts : Nat
deriving DecidableEq, Repr

/-- Model of `VENDORS` (web_app.py lines 68-81) in dict insertion order. -/
def VENDORS : List (String × VendorConfig) :=
  [("rogers", ⟨3⟩), ("mhydro", ⟨1⟩), ("hwater", ⟨2⟩)]

/-- What one loop iteration of `run_automation_job` observes about the
external downloader for a given (vendor, account) unit. -/
inductive UnitOutcome where
  /-- Case: `downloader_class()` raised (web_app.py line 137 is outside the
  per-unit `try`, e.g. missing `.env` credentials raise in `__init__`). -/
  | ctorRaise (msg : String)
  /-- Case: `downloader.run(...)` returned normally: `some path` or `None`. -/
  | runReturn (path : Option String)
  /-- Case: `downloader.run(...)` raised; caught by the per-unit `except`. -/
  | runRaise (msg : String)
deriving DecidableEq, Repr

def UnitOutcome.isCtorRaise : UnitOutcome → Bool
  | .ctorRaise _ => true
  | _ => false

/-- Python `os.path.basename` (web_app.py line 161). -/
def pyBasename (s : String) : String :=
  ⟨(s.data.reverse.takeWhile (fun c => c ≠ '/')).reverse⟩

/-- The result entry recorded for one unit whose constructor succeeded
(web_app.py lines 146-184). -/
def expectedResult (vendor : String) (account : Nat) : UnitOutcome → ResultEntry
  | .runReturn (some path) =>
      ⟨vendor, account, "success", some (pyBasename path), none⟩
  | .runReturn none =>
      ⟨vendor, account, "failed", none, some "Downloader returned None"⟩
  | .runRaise e => ⟨vendor, account, "failed", none, some e⟩
  | .ctorRaise _ => ⟨vendor, account, "failed", none, none⟩  -- never reached

/-- Output of the unit loop: the successive job snapshots, the final job
state, and the exception (if any) that escaped the loop. -/
structure RunUnitsOut where
  trace : List Job
  final : Job
  exn : Option String

/-- The `for vendor_name, vendor_config, account_index in jobs_to_run` loop of
`run_automation_job` (web_app.py lines 135-184).  Per unit: construct the
downloader (may raise, aborting the loop), update `current_vendor` /
`current_account`, then run and record exactly one result — run failures are
caught by the per-unit `try/except` and recorded, never propagated. -/
def runUnits (f : String → Nat → UnitOutcome) :
    Job → List (String × Nat) → RunUnitsOut
  | j, [] => ⟨[], j, none⟩
  | j, (v, a) :: rest =>
    match f v a with
    | .ctorRaise e => ⟨[], j, some e⟩
    | out =>
      let j1 := setCurrent j v a
      let j2 := addResult j1 v a (expectedResult v a out).status
        (expectedResult v a out).filename (expectedResult v a out).error
      let o := runUnits f j2 rest
      ⟨j1 :: j2 :: o.trace, o.final, o.exn⟩

/-- The `jobs_to_run` list derivation of `run_automation_job`
(web_app.py lines 107-130).  A `ValueError` becomes `.error`. -/
def deriveUnits (meta : JobMetadata) : Except String (List (String × Nat)) :=
  if meta.mode = "single" then
    match meta.vendor, meta.account with
    | some v, some a =>
      if v = "" then .error "Single mode requires vendor and account in metadata"
      else if (VENDORS.lookup v).isNone then .error ("Unknown vendor: " ++ v)
      else .ok [(v, a.toNat)]
    | _, _ => .error "Single mode requires vendor and account in metadata"
  else
    .ok (VENDORS.flatMap fun p => (List.range p.2.accounts).map fun i => (p.1, i))

/-- Closing step of `run_automation_job`: `mark_completed` after the loop
(line 187), or `mark_failed` when an exception escaped the loop and reached
the top-level `except` (lines 205-207). -/
def finishJob (o : RunUnitsOut) (tEnd : Nat) : Job :=
  match o.exn with
  | some e => markFailed o.final e tEnd
  | none => markCompleted o.final tEnd

/-- Model of `run_automation_job` (web_app.py lines 83-207) as the list of successive
snapshots of its job, starting from the freshly created job.  The final batch
email (lines 189-203) reads the job but never mutates it, and an email failure
is swallowed, so it contributes no snapshot. -/
def run_automation_job (job : Job) (f : String → Nat → UnitOutcome)
    (tStart tEnd : Nat) : List Job :=
  let j1 := markStarted job tStart
  match deriveUnits j1.metadata with
  | .error msg => [job, j1, markFailed j1 msg tEnd]
  | .ok units =>
    let j2 := setTotal j1 units.length
    let o := runUnits f j2 units
    [job, j1, j2] ++ o.trace ++ [finishJob o tEnd]

/-- The request body accepted by `POST /api/start-job`. -/
structure StartJobRequest where
  mode : Option String
  vendor : Option String
  account : Option Int
  email_to : Option String
deriving DecidableEq, Repr

/-- An HTTP response of `start_job`: status code plus the JSON fields used. -/
structure HttpResponse where
  code : Nat
  success : Bool
  error : Option String
  job_id : Option String
deriving DecidableEq, Repr

/-- The `start_job` request handler (web_app.py lines 215-317).
`defaultEmail` stands for `load_user_settings('local')['default_email_to']`;
`newJobId` and `now` stand for `uuid4()` / `datetime.now()` inside
`create_job`.  Returns the response and the updated registry; the background
thread it spawns is modelled separately by `run_automation_job`. -/
def start_job (jobs : JobRegistry) (req : StartJobRequest)
    (defaultEmail : Option String) (newJobId : String) (now : Nat) :
    HttpResponse × JobRegistry :=
  if hasActiveJob jobs then
    (⟨409, false, some "A job is already running. Please wait for it to complete", none⟩,
     jobs)
  else
    let mode := req.mode.getD "all"
    let va := validate_email req.email_to
    if va.1 = false then
      (⟨400, false, some "Invalid email address", none⟩, jobs)
    else
      let email_to := match va.2.1 with
        | some e => some e
        | none => defaultEmail
      if mode ≠ "all" ∧ mode ≠ "single" then
        (⟨400, false, some ("Invalid mode: " ++ mode), none⟩, jobs)
      else if mode = "single" then
        match req.vendor with
        | none => (⟨400, false, some "vendor is required when mode is \"single\"", none⟩, jobs)
        | some v =>
          if v = "" then
            (⟨400, false, some "vendor is required when mode is \"single\"", none⟩, jobs)
          else match VENDORS.lookup v with
          | none => (⟨400, false, some ("Unknown vendor: " ++ v), none⟩, jobs)
          | some cfg =>
            match req.account with
            | none => (⟨400, false, some "account is required when mode is \"single\"", none⟩, jobs)
            | some acct =>
              if ¬ (0 ≤ acct ∧ acct < cfg.accounts) then
                (⟨400, false, some "Invalid account index", none⟩, jobs)
              else
                let meta : JobMetadata :=
                  ⟨mode, req.vendor, req.account, email_to, "local"⟩
                (⟨200, true, none, some newJobId⟩,
                 jobs ++ [Job.new newJobId meta now])
      else
        let meta : JobMetadata :=
          ⟨mode, req.vendor, req.account, email_to, "local"⟩
        (⟨200, true, none, some newJobId⟩,
         jobs ++ [Job.new newJobId meta now])

/-! ## Vendor downloader lifecycle — `VendorDownloader.run`
(`src/ITC/downloaders/base.py` lines 200-273) -/

/-- What the external world does during one `VendorDownloader.run` call:
for each stage, whether it raises (and with what message).  `download` is the
vendor's `download_invoice`, which may raise or return an optional path. -/
structure RunEnv where
  /-- Stage `setup_download_directory` (base.py lines 61-66, called at line 213
  before the `try` block): `Path(...).mkdir` may raise. -/
  setupRaises : Option String
  /-- Stage `playwright.chromium.launch(channel="msedge")` (lines 227-231). -/
  edgeLaunchRaises : Option String
  /-- the fallback `playwright.chromium.launch` (lines 235-238). -/
  chromiumLaunchRaises : Option String
  /-- the vendor's `login` (line 253). -/
  loginRaises : Option String
  /-- the vendor's `navigate_to_invoices` (line 254). -/
  navigateRaises : Option String
  /-- the vendor's `download_invoice` (line 255): raise, or return. -/
  download : Except String (Option String)
deriving Repr

/-- Browser-session bookkeeping observable after `run` returns. -/
structure RunState where
  browserLaunched : Bool
  browserClosed : Bool
deriving DecidableEq, Repr

/-- Model of `VendorDownloader.run` (base.py lines 200-273).  `setup_download_directory`
executes before the protected region, so its exception propagates; inside the
`with sync_playwright()` block every exception is caught by the outer
`except`, which closes the browser when one was launched and returns `None`.
The Edge launch failure is caught by the inner `try` and falls back to
Chromium. -/
def VendorDownloader.run (env : RunEnv) : Except String (Option String) × RunState :=
  match env.setupRaises with
  | some e => (.error e, ⟨false, false⟩)
  | none =>
    -- outer try (line 222)
    match env.edgeLaunchRaises, env.chromiumLaunchRaises with
    | some _, some _ =>
        -- both launches failed; `self.browser` is still None, so the outer
        -- `except` skips `browser.close()` and returns None
        (.ok none, ⟨false, false⟩)
    | _, _ =>
      -- a browser is up; context and page are created, then the three
      -- vendor stages run in order
      match env.loginRaises with
      | some _ => (.ok none, ⟨true, true⟩)
      | none =>
        match env.navigateRaises with
        | some _ => (.ok none, ⟨true, true⟩)
        | none =>
          match env.download with
          | .error _ => (.ok none, ⟨true, true⟩)
          | .ok res => (.ok res, ⟨true, true⟩)

/-! ## Filename generation — `VendorDownloader.generate_file_name`
(base.py lines 128-161) -/

/-- Per-account metadata entry (`ACCOUNT_METADATA` values). -/
structure AccountMeta where
  vendor_number : String
  account_number : String
  gl_account : String
deriving DecidableEq, Repr

/-- A `datetime` value, restricted to the date fields the system uses. -/
structure PyDate where
  year : Nat
  month : Nat
  day : Nat
deriving DecidableEq, Repr

/-- Decimal digit characters. -/
def digitChar : Nat → Char
  | 0 => '0' | 1 => '1' | 2 => '2' | 3 => '3' | 4 => '4'
  | 5 => '5' | 6 => '6' | 7 => '7' | 8 => '8' | 9 => '9'
  | _ => '?'

/-- Decimal digits of `n`, most significant first, no leading zeros
(fuel-driven so the kernel can evaluate it). -/
def natDigitsAux : Nat → Nat → List Char
  | 0, _ => []
  | fuel + 1, n =>
    if n < 10 then [digitChar n]
    else natDigitsAux fuel (n / 10) ++ [digitChar (n % 10)]

/-- Decimal rendering of `n` without padding: the `%-d` / `%#d` day directive
and the `%Y` / `%b`-adjacent year rendering. -/
def natDigits (n : Nat) : List Char := natDigitsAux (n + 1) n

/-- The twelve `%b` month abbreviations. -/
def monthAbbrevs : List String :=
  ["Jan", "Feb", "Mar", "Apr", "May", "Jun",
   "Jul", "Aug", "Sep", "Oct", "Nov", "Dec"]

/-- Model of `%b` for a month number (1-12 in every `datetime` the system builds). -/
def monthAbbrev (m : Nat) : String := monthAbbrevs.getD (m - 1) ""

/-- Model of `date_obj.strftime("%-d-%b-%Y")` / `strftime("%#d-%b-%Y")` (base.py lines
153-156): day without leading zero, dash, month abbreviation, dash, year.
The Windows `%#d` and POSIX `%-d` directives both mean an unpadded day, so
the two platform branches produce the same characters. -/
def strftimeDMY (d : PyDate) : List Char :=
  natDigits d.day ++
    '-' :: ((monthAbbrev d.month).data ++ '-' :: natDigits d.year)

/-- The f-string of base.py line 159:
`f"{vendor_number}_{account_number}_{date_str}_{gl_account}.pdf"`. -/
def buildFileName (meta : AccountMeta) (date_str : List Char) : String :=
  ⟨meta.vendor_number.data ++ '_' ::
    (meta.account_number.data ++ '_' ::
      (date_str ++ '_' :: (meta.gl_account.data ++ ".pdf".data)))⟩

/-- Model of `VendorDownloader.generate_file_name` (base.py lines 128-161).
`ACCOUNT_METADATA[account_index]` raises `KeyError` on a missing index
(modelled as `.error`); a `None` `invoice_date` falls back to
`datetime.now()`, passed in as `now`. -/
def generate_file_name (tbl : List (Nat × AccountMeta)) (account_index : Nat)
    (invoice_date : Option PyDate) (now : PyDate) (isWindows : Bool) :
    Except String String :=
  match tbl.lookup account_index with
  | none => .error "KeyError"
  | some meta =>
    let date_obj := invoice_date.getD now
    let date_str := if isWindows then strftimeDMY date_obj else strftimeDMY date_obj
    .ok (buildFileName meta date_str)

/-- Model of `RogersDownloader.ACCOUNT_METADATA` (rogers.py lines 21-25). -/
def ROGERS_ACCOUNT_METADATA : List (Nat × AccountMeta) :=
  [(0, ⟨"ROGE04", "3509", "68050-YYT-11-410"⟩),
   (1, ⟨"ROGE04", "7803", "68050-YYT-16-412"⟩),
   (2, ⟨"ROGE04", "8401", "68050-YYT-10-410"⟩)]

/-- Model of `ManitobaHydroDownloader.ACCOUNT_METADATA` (mhydro.py lines 21-23). -/
def MHYDRO_ACCOUNT_METADATA : List (Nat × AccountMeta) :=
  [(0, ⟨"MANI03", "7950", "68100-YWG-10-410"⟩)]

/-- Model of `HalifaxWaterDownloader.ACCOUNT_METADATA` (halifaxwater.py lines 21-24). -/
def HWATER_ACCOUNT_METADATA : List (Nat × AccountMeta) :=
  [(0, ⟨"HALI01", "6893", "68100-YHZ-11-412"⟩),
   (1, ⟨"HALI01", "1871", "68000-YHZ-10-412"⟩)]

/-- Model of `EnmaxDownloader.ACCOUNT_METADATA` (enmax.py lines 23-29). -/
def ENMAX_ACCOUNT_METADATA : List (Nat × AccountMeta) :=
  [(0, ⟨"ENMA01", "4193", "68000-YYC-18-410"⟩),
   (1, ⟨"ENMA01", "1303", "61202-YYC-11-412"⟩),
   (2, ⟨"ENMA01", "2173", "68000-YYC-18-410"⟩),
   (3, ⟨"ENMA01", "3673", "68000-YYC-10-410"⟩),
   (4, ⟨"ENMA01", "2573", "68002-YYC-11-412"⟩)]

/-- Model of `EastwardDownloader.ACCOUNT_METADATA` (eastward.py lines 25-27). -/
def EASTWARD_ACCOUNT_METADATA : List (Nat × AccountMeta) :=
  [(0, ⟨"HERI01", "4511", "68100-YHZ-18-410"⟩)]

/-- Every configured account metadata entry across the repository's vendors. -/
def allConfiguredMetadata : List AccountMeta :=
  (ROGERS_ACCOUNT_METADATA ++ MHYDRO_ACCOUNT_METADATA ++
   HWATER_ACCOUNT_METADATA ++ ENMAX_ACCOUNT_METADATA ++
   EASTWARD_ACCOUNT_METADATA).map Prod.snd

/-- Split a character list at every `'_'` (Python `basename.split('_')`). -/
def splitUnders : List Char → List (List Char)
  | [] => [[]]
  | c :: rest =>
    if c = '_' then [] :: splitUnders rest
    else
      match splitUnders rest with
      | [] => [[c]]
      | p :: ps => (c :: p) :: ps

/-- Strip a trailing `".pdf"`. -/
def dropDotPdf (l : List Char) : Option (List Char) :=
  if 4 ≤ l.length ∧ l.drop (l.length - 4) = ".pdf".data then
    some (l.take (l.length - 4))
  else none

/-- Modelled from the spec: the inverse of `FilenameBuilder` — no parser
exists in the source, so per spec §8 ("re-parsing it with the inverse of
`FilenameBuilder`") the basename is split at its underscores and the
`(vendorCode, accountNumber, glAccount)` triple is read back from the first,
second and last (".pdf"-stripped) parts. -/
def parse_file_name (s : String) : Option (String × String × String) :=
  match splitUnders s.data with
  | [v, a, _date, g] =>
    match dropDotPdf g with
    | some g' => some (⟨v⟩, ⟨a⟩, ⟨g'⟩)
    | none => none
  | _ => none

/-! ## `datetime.strptime` — the exact-match parse used by
`extract_date_from_pdf` -/

/-- Accumulated field values during a `strptime` parse. -/
structure StrpAcc where
  year : Option Nat
  month : Option Nat
  day : Option Nat
deriving DecidableEq, Repr

def digitVal (c : Char) : Nat := c.toNat - 48

/-- Model of `%b`: one of the twelve month abbreviations, case-insensitively. -/
def matchMonth (input : List Char) : Option (Nat × List Char) :=
  match monthAbbrevs.findIdx?
      (fun m => m.data.map Char.toLower = (input.take 3).map Char.toLower) with
  | some i => some (i + 1, input.drop 3)
  | none => none

/-- Model of `%d`: CPython's regex `(3[01]|[12]\d|0[1-9]|[1-9])`, alternatives tried
in that order. -/
def matchDay : List Char → Option (Nat × List Char)
  | c1 :: c2 :: rest =>
    if c1 = '3' ∧ (c2 = '0' ∨ c2 = '1') then some (30 + digitVal c2, rest)
    else if (c1 = '1' ∨ c1 = '2') ∧ c2.isDigit then
      some (10 * digitVal c1 + digitVal c2, rest)
    else if c1 = '0' ∧ (c2.isDigit ∧ c2 ≠ '0') then some (digitVal c2, rest)
    else if c1.isDigit ∧ c1 ≠ '0' then some (digitVal c1, c2 :: rest)
    else none
  | [c1] => if c1.isDigit ∧ c1 ≠ '0' then some (digitVal c1, []) else none
  | [] => none

/-- Model of `%Y`: CPython's regex `\d\d\d\d` — exactly four digits. -/
def matchYear : List Char → Option (Nat × List Char)
  | a :: b :: c :: d :: rest =>
    if a.isDigit ∧ b.isDigit ∧ c.isDigit ∧ d.isDigit then
      some (1000 * digitVal a + 100 * digitVal b + 10 * digitVal c + digitVal d,
            rest)
    else none
  | _ => none

/-- The `strptime` matching loop over the format string.  A whitespace run in
the format matches one-or-more whitespace in the input (CPython replaces it
with `\s+`); other literal characters match case-insensitively; an
unsupported directive raises `ValueError` (here: `none`); leftover input
("unconverted data") raises `ValueError`.  The fuel only needs to cover the
format length, since every step consumes at least one format character. -/
def strptimeAux : Nat → List Char → List Char → StrpAcc → Option StrpAcc
  | 0, _, _, _ => none
  | _ + 1, [], input, acc => if input = [] then some acc else none
  | fuel + 1, '%' :: dir :: fmt, input, acc =>
    match dir with
    | 'b' =>
      match matchMonth input with
      | some (m, rest) => strptimeAux fuel fmt rest { acc with month := some m }
      | none => none
    | 'd' =>
      match matchDay input with
      | some (d, rest) => strptimeAux fuel fmt rest { acc with day := some d }
      | none => none
    | 'Y' =>
      match matchYear input with
      | some (y, rest) => strptimeAux fuel fmt rest { acc with year := some y }
      | none => none
    | '%' =>
      match input with
      | i :: irest => if i = '%' then strptimeAux fuel fmt irest acc else none
      | [] => none
    | _ => none
  | _ + 1, ['%'], _, _ => none
  | fuel + 1, c :: fmt, input, acc =>
    if pyIsSpace c then
      if (input.takeWhile pyIsSpace).isEmpty then none
      else strptimeAux fuel (fmt.dropWhile pyIsSpace) (input.dropWhile pyIsSpace) acc
    else
      match input with
      | i :: irest =>
        if i.toLower = c.toLower then strptimeAux fuel fmt irest acc else none
      | [] => none

/-- Model of `datetime.strptime(s, fmt)` restricted to the date fields, with CPython's
defaults `year=1900, month=1, day=1`; `none` is a raised `ValueError`. -/
def strptime (s fmt : String) : Option PyDate :=
  (strptimeAux (fmt.data.length + 1) fmt.data s.data ⟨none, none, none⟩).map
    fun acc => ⟨acc.year.getD 1900, acc.month.getD 1, acc.day.getD 1⟩

/-! ## PDF date extraction — `VendorDownloader.extract_date_from_pdf`
(base.py lines 84-124) and the Manitoba Hydro override
(mhydro.py lines 204-237) -/

/-- A page-coordinate rectangle `(x0, y0, x1, y1)`. -/
abbrev BBox := ℚ × ℚ × ℚ × ℚ

/-- A PDF page, abstracted to what `within_bbox(...).extract_text()` yields
for each crop region (`none` for a region with no text). -/
structure PdfPage where
  textInBBox : BBox → Option String

/-- A PDF document as `pdfplumber` exposes it. -/
structure PdfDoc where
  pages : List PdfPage

/-- The text `pdfplumber.open(...)...extract_text()` produces for a region:
`none` when opening failed, the document has no pages, or the crop holds no
text. -/
def croppedText (pdf : Except String PdfDoc) (bbox : BBox) : Option String :=
  match pdf with
  | .error _ => none
  | .ok doc =>
    match doc.pages with
    | [] => none
    | p :: _ => p.textInBBox bbox

/-- Model of `VendorDownloader.extract_date_from_pdf` (base.py lines 84-124).
`pdfplumber.open` failures and the `pdf.pages[0]` `IndexError` are absorbed
by the outer `except` (returns `None`); `if not text` returns `None`;
otherwise the stripped text is parsed with `strptime`, whose `ValueError` is
caught (returns `None`). -/
def VendorDownloader.extract_date_from_pdf (pdf : Except String PdfDoc)
    (bbox : BBox) (date_format : String) : Option PyDate :=
  match pdf with
  | .error _ => none
  | .ok doc =>
    match doc.pages with
    | [] => none
    | p :: _ =>
      match p.textInBBox bbox with
      | none => none
      | some text =>
        if text = "" then none
        else strptime (pyStrip text) date_format

def isUpperAZ (c : Char) : Bool := 'A' ≤ c && c ≤ 'Z'

/-- Model of `re.sub(r'\s[A-Z]{3}\s', ' ', text)` (mhydro.py line 227): replace each
leftmost non-overlapping whitespace-bounded 3-letter uppercase token
(whitespace included) by a single space. -/
def subUpper3 : List Char → List Char
  | c1 :: c2 :: c3 :: c4 :: c5 :: rest =>
    if pyIsSpace c1 && isUpperAZ c2 && isUpperAZ c3 && isUpperAZ c4 && pyIsSpace c5
    then ' ' :: subUpper3 rest
    else c1 :: subUpper3 (c2 :: c3 :: c4 :: c5 :: rest)
  | l => l

/-- Model of `ManitobaHydroDownloader.extract_date_from_pdf` (mhydro.py lines 204-237):
the vendor override.  Same shape as the base method, but it strips the
duplicate 3-letter uppercase (French) month token and always parses with the
fixed secondary format `'%b %d %Y'` — the `date_format` argument is unused. -/
def ManitobaHydroDownloader.extract_date_from_pdf (pdf : Except String PdfDoc)
    (bbox : BBox) (_date_format : String) : Option PyDate :=
  match pdf with
  | .error _ => none
  | .ok doc =>
    match doc.pages with
    | [] => none
    | p :: _ =>
      match p.textInBBox bbox with
      | none => none
      | some text =>
        if text = "" then none
        else
          let stripped := ⟨subUpper3 (pyStrip text).data⟩
          strptime stripped "%b %d %Y"

/-! ## Rogers login with rc01 recovery — `RogersDownloader.login`
(rogers.py lines 175-270) and `_recover_from_rc01` (lines 77-173) -/

/-- What the portal does during one iteration of the login retry loop. -/
structure AttemptEnv where
  /-- an exception (e.g. `PlaywrightTimeout`) raised while filling the
  username or clicking Continue (rogers.py lines 200-208). -/
  usernamePhase : Option String
  /-- Result of `_check_for_rc01_error()` after Continue (line 211). -/
  rc01 : Bool
  /-- the boolean `_recover_from_rc01()` returns (lines 77-173): `false`
  when the Try Again control cannot be located or recovery raised
  internally. -/
  recoveryOk : Bool
  /-- an exception raised while filling the password, clicking login, or
  waiting for the account-selector modal (lines 232-245). -/
  passwordPhase : Option String
deriving DecidableEq, Repr

/-- Result of one iteration of the `for attempt in range(max_login_attempts)`
body, inclusive of its `except` handler: return (success), `continue`
(retry), or a propagated exception. -/
inductive AttemptOutcome where
  | success
  | retry
  | fatal (e : String)
deriving DecidableEq, Repr

/-- One iteration of the login loop body (rogers.py lines 194-267) with its
`try/except`.  `isLast` is `¬ (attempt < max_login_attempts - 1)`.  Note
both the "recovery failed" exception (line 224) and the rc01 branch's
max-attempts exception (line 229) are raised inside the `try`, so the
generic `except Exception` handler (lines 260-267) decides whether they
retry or propagate. -/
def loginAttempt (b : AttemptEnv) (isLast : Bool) : AttemptOutcome :=
  match b.usernamePhase with
  | some e => if isLast then .fatal e else .retry
  | none =>
    if b.rc01 then
      if ¬ isLast then
        if b.recoveryOk then
          -- recovery clicked Try Again; cool down and `continue`
          .retry
        else
          -- `raise Exception("Failed to recover from rc01 error")` is caught
          -- by the handler, which retries because attempts remain
          .retry
      else
        -- last attempt: the raised max-attempts exception reaches the
        -- handler on the last attempt and is re-raised
        .fatal "Maximum login attempts reached - Stopping to avoid ban"
    else
      match b.passwordPhase with
      | some e => if isLast then .fatal e else .retry
      | none => .success

/-- Model of `RogersDownloader.login` (rogers.py lines 175-270) with
`max_login_attempts = 2` (line 192), unrolled.  Returns the call outcome and
how many loop iterations (login attempts) were performed. -/
def RogersDownloader.login (env : Nat → AttemptEnv) : Except String Unit × Nat :=
  match loginAttempt (env 0) false with
  | .success => (.ok (), 1)
  | .fatal e => (.error e, 1)
  | .retry =>
    match loginAttempt (env 1) true with
    | .success => (.ok (), 2)
    | .fatal e => (.error e, 2)
    | .retry => (.error "All login attempts failed", 2)

/-! ## Claim theorems -/

/-- C1: For every start-job request received while some Job in the registry
has status Pending or Running, `createJob` fails with `ConflictError` (the
HTTP 409 branch) and no new Job is added to the registry. -/
theorem start_job_conflict_when_active (jobs : JobRegistry)
    (req : StartJobRequest) (defaultEmail : Option String) (newJobId : String)
    (now : Nat) (h : hasActiveJob jobs = true) :
    start_job jobs req defaultEmail newJobId now =
      (⟨409, false,
        some "A job is already running. Please wait for it to complete", none⟩,
       jobs) := by
  simp [start_job, h]

theorem start_job_conflict_when_active_witness :
    hasActiveJob [Job.new "j1" ⟨"all", none, none, none, "local"⟩ 0] = true ∧
    start_job [Job.new "j1" ⟨"all", none, none, none, "local"⟩ 0]
        ⟨none, none, none, none⟩ none "j2" 1 =
      (⟨409, false,
        some "A job is already running. Please wait for it to complete", none⟩,
       [Job.new "j1" ⟨"all", none, none, none, "local"⟩ 0]) :=
  ⟨by decide, start_job_conflict_when_active _ _ _ _ _ (by decide)⟩

/-- C10: For every Job snapshot, the status serializer never divides by zero:
when `totalUnits` is 0, the derived `percent_complete` field is reported as 0
and `to_dict` returns normally (the model is a total function). -/
theorem to_dict_percent_complete_zero (j : Job) (h : j.total_accounts = 0) :
    (Job.to_dict j).percent_complete = 0 := by
  simp [Job.to_dict, h]

theorem to_dict_percent_complete_zero_witness :
    (Job.to_dict (Job.new "j" ⟨"all", none, none, none, "local"⟩ 0)).percent_complete = 0 :=
  to_dict_percent_complete_zero _ rfl

/-- C3 counterexample: `VendorDownloader.run` is not exception-free over all
its inputs — when `setup_download_directory` raises (it runs at base.py line
213, before the protected `try` block; e.g. `mkdir` fails because the
download path is not writable), the exception propagates to the caller
instead of yielding a path or `None`. -/
theorem vendor_run_raises_on_setup_failure :
    (VendorDownloader.run
      ⟨some "PermissionError: [Errno 13] Permission denied",
       none, none, none, none, .ok none⟩).1 =
      .error "PermissionError: [Errno 13] Permission denied" := rfl

/-- C3 amended: for every input whose `setup_download_directory` step does not
raise, `VendorDownloader.run` is total at its boundary — any failure in the
browser-launch, login, navigation or download stages is caught, the browser is
closed whenever one was launched, and the call returns a downloaded-file path
or `None`, never an exception. -/
theorem vendor_run_total_after_setup (env : RunEnv)
    (h : env.setupRaises = none) :
    (∃ r, (VendorDownloader.run env).1 = .ok r) ∧
    ((VendorDownloader.run env).2.browserLaunched = true →
      (VendorDownloader.run env).2.browserClosed = true) := by
  obtain ⟨s, e, c, l, n, d⟩ := env
  cases h
  cases e <;> cases c <;> cases l <;> cases n <;> cases d <;>
    simp [VendorDownloader.run]

theorem vendor_run_total_after_setup_witness :
    (∃ r, (VendorDownloader.run
        ⟨none, none, none, some "AuthError: login UI unreachable", none, .ok none⟩).1 = .ok r) ∧
    ((VendorDownloader.run
        ⟨none, none, none, some "AuthError: login UI unreachable", none, .ok none⟩).2.browserLaunched = true →
      (VendorDownloader.run
        ⟨none, none, none, some "AuthError: login UI unreachable", none, .ok none⟩).2.browserClosed = true) :=
  vendor_run_total_after_setup _ rfl

/-- C5: For every PDF whose cropped date region contains no text, and for
every region text that does not match the supplied strftime format, the date
extractor returns `None`; the catch-all `except` and the `ValueError` handler
make it total (it never raises to its caller). -/
theorem extract_date_from_pdf_none (pdf : Except String PdfDoc) (bbox : BBox)
    (fmt : String)
    (h : ∀ s, croppedText pdf bbox = some s → strptime (pyStrip s) fmt = none) :
    VendorDownloader.extract_date_from_pdf pdf bbox fmt = none := by
  match pdf with
  | .error _ => rfl
  | .ok doc =>
    match hp : doc.pages with
    | [] => simp [VendorDownloader.extract_date_from_pdf, hp]
    | p :: rest =>
      simp only [VendorDownloader.extract_date_from_pdf, hp]
      match ht : p.textInBBox bbox with
      | none => rfl
      | some text =>
        have := h text (by simp [croppedText, hp, ht])
        by_cases he : text = "" <;> simp [he, this]

theorem extract_date_from_pdf_none_witness :
    VendorDownloader.extract_date_from_pdf
      (.ok ⟨[⟨fun _ => some "hello world"⟩]⟩) (0, 0, 10, 10) "%b %d, %Y" = none :=
  extract_date_from_pdf_none _ _ _
    (fun s hs => by
      simp [croppedText] at hs
      subst hs
      decide)

/-- C6 counterexample: with date-region text `"12 DEC 2025"`, the Manitoba
Hydro override strips the token to `"12 2025"`, but that text does not parse
against the fixed secondary format `'%b %d %Y'` (`%b` requires a month
abbreviation), so there is no date the extractor could return: the claim that
it returns the parsed date is false at this input. -/
theorem mhydro_override_no_parsed_date :
    ¬ ∃ d, strptime "12 2025" "%b %d %Y" = some d ∧
      ManitobaHydroDownloader.extract_date_from_pdf
        (.ok ⟨[⟨fun _ => some "12 DEC 2025"⟩]⟩) (330, 99, 462, 111) "%b %d, %Y" =
        some d := by
  rintro ⟨d, h1, -⟩
  have h2 : strptime "12 2025" "%b %d %Y" = none := by decide
  rw [h2] at h1
  exact Option.noConfusion h1

/-- C6 amended: with date-region text `"12 DEC 2025"`, the vendor override
does fire instead of the default parse — it strips the whitespace-bounded
3-letter uppercase token, yielding exactly `"12 2025"` — but `"12 2025"` does
not parse against the fixed secondary format `'%b %d %Y'`, so the extractor
returns `None` (no date and no exception) rather than a parsed date. -/
theorem mhydro_override_strips_then_returns_none :
    String.mk (subUpper3 (pyStrip "12 DEC 2025").data) = "12 2025" ∧
    strptime "12 2025" "%b %d %Y" = none ∧
    ManitobaHydroDownloader.extract_date_from_pdf
      (.ok ⟨[⟨fun _ => some "12 DEC 2025"⟩]⟩) (330, 99, 462, 111) "%b %d, %Y" =
      none :=
  ⟨rfl, by decide, rfl⟩

/-- C9 counterexample: a recovery attempt that fails to locate the retry
control does not make `login` raise with no further attempts — the
`raise Exception("Failed to recover from rc01 error")` of rogers.py line 224
lands in the loop's generic `except Exception` handler, which retries while
attempts remain.  Here attempt 0 hits rc01, recovery fails, and attempt 1
succeeds: `login` returns normally after performing a second attempt. -/
theorem rogers_login_retries_after_failed_recovery :
    RogersDownloader.login
      (fun n => if n = 0 then ⟨none, true, false, none⟩
                else ⟨none, false, false, none⟩) = (.ok (), 2) := rfl

/-- C9 amended: `RogersDownloader.login` performs at most 2 total login
attempts (including the original); if the rc01 error signature persists after
the last allowed attempt, login raises and performs no further attempts; but
a recovery attempt that fails on the first attempt is caught by the loop's
retry handler and a second full login attempt is performed rather than an
immediate fatal failure. -/
theorem rogers_login_attempt_policy :
    (∀ env : Nat → AttemptEnv, (RogersDownloader.login env).2 ≤ 2) ∧
    (∀ env : Nat → AttemptEnv,
      (env 0).usernamePhase = none → (env 0).rc01 = true →
      (env 1).usernamePhase = none → (env 1).rc01 = true →
      RogersDownloader.login env =
        (.error "Maximum login attempts reached - Stopping to avoid ban", 2)) ∧
    (∀ env : Nat → AttemptEnv,
      (env 0).usernamePhase = none → (env 0).rc01 = true →
      (env 0).recoveryOk = false →
      (RogersDownloader.login env).2 = 2) := by
  refine ⟨?_, ?_, ?_⟩
  · intro env
    unfold RogersDownloader.login
    cases loginAttempt (env 0) false <;>
      [skip; cases loginAttempt (env 1) true; skip] <;> simp
  · intro env h0u h0r h1u h1r
    unfold RogersDownloader.login
    rw [show loginAttempt (env 0) false = .retry by
          simp [loginAttempt, h0u, h0r],
        show loginAttempt (env 1) true =
            .fatal "Maximum login attempts reached - Stopping to avoid ban" by
          simp [loginAttempt, h1u, h1r]]
  · intro env h0u h0r h0rec
    unfold RogersDownloader.login
    rw [show loginAttempt (env 0) false = .retry by
          simp [loginAttempt, h0u, h0r, h0rec]]
    cases loginAttempt (env 1) true <;> simp

theorem rogers_login_attempt_policy_witness :
    (RogersDownloader.login (fun _ => ⟨none, true, true, none⟩)).2 ≤ 2 ∧
    RogersDownloader.login (fun _ => ⟨none, true, true, none⟩) =
      (.error "Maximum login attempts reached - Stopping to avoid ban", 2) ∧
    (RogersDownloader.login (fun _ => ⟨none, true, false, none⟩)).2 = 2 :=
  ⟨rogers_login_attempt_policy.1 _,
   rogers_login_attempt_policy.2.1 _ rfl rfl rfl rfl,
   rogers_login_attempt_policy.2.2 _ rfl rfl rfl⟩

/-- The per-job registry invariant of spec §3 / §8. -/
def JobInv (j : Job) : Prop :=
  j.completed_accounts ≤ j.total_accounts ∧
  j.results.length = j.completed_accounts

theorem jobInv_setCurrent {j : Job} (hj : JobInv j) (v : String) (a : Nat) :
    JobInv (setCurrent j v a) := hj

theorem jobInv_addResult {j : Job} (hj : JobInv j)
    (hlt : j.completed_accounts < j.total_accounts)
    (v : String) (a : Nat) (st : String) (fn er : Option String) :
    JobInv (addResult j v a st fn er) := by
  unfold JobInv addResult
  constructor
  · exact hlt
  · simp [hj.2]

/-- The job state after one successfully constructed unit: current unit set,
then one result recorded. -/
def stepJob (j : Job) (v : String) (a : Nat) (out : UnitOutcome) : Job :=
  addResult (setCurrent j v a) v a (expectedResult v a out).status
    (expectedResult v a out).filename (expectedResult v a out).error

theorem runUnits_cons_ctor (f : String → Nat → UnitOutcome) (v : String)
    (a : Nat) (rest : List (String × Nat)) (j : Job) (e : String)
    (hfa : f v a = .ctorRaise e) :
    runUnits f j ((v, a) :: rest) = ⟨[], j, some e⟩ := by
  simp [runUnits, hfa]

theorem runUnits_cons (f : String → Nat → UnitOutcome) (v : String) (a : Nat)
    (rest : List (String × Nat)) (j : Job)
    (hno : (f v a).isCtorRaise = false) :
    runUnits f j ((v, a) :: rest) =
      ⟨setCurrent j v a :: stepJob j v a (f v a) ::
         (runUnits f (stepJob j v a (f v a)) rest).trace,
       (runUnits f (stepJob j v a (f v a)) rest).final,
       (runUnits f (stepJob j v a (f v a)) rest).exn⟩ := by
  cases hfa : f v a with
  | ctorRaise e => rw [hfa] at hno; exact absurd hno (by simp [UnitOutcome.isCtorRaise])
  | runReturn po => simp [runUnits, hfa, stepJob]
  | runRaise e => simp [runUnits, hfa, stepJob]

theorem stepJob_completed (j : Job) (v : String) (a : Nat) (out : UnitOutcome) :
    (stepJob j v a out).completed_accounts = j.completed_accounts + 1 := rfl

theorem stepJob_total (j : Job) (v : String) (a : Nat) (out : UnitOutcome) :
    (stepJob j v a out).total_accounts = j.total_accounts := rfl

theorem stepJob_results (j : Job) (v : String) (a : Nat) (out : UnitOutcome) :
    (stepJob j v a out).results = j.results ++ [expectedResult v a out] := by
  rcases out with m | (_ | p) | e <;>
    simp [stepJob, addResult, setCurrent, expectedResult]

theorem stepJob_status (j : Job) (v : String) (a : Nat) (out : UnitOutcome) :
    (stepJob j v a out).status = j.status := rfl

theorem jobInv_stepJob {j : Job} (hj : JobInv j)
    (hlt : j.completed_accounts < j.total_accounts)
    (v : String) (a : Nat) (out : UnitOutcome) :
    JobInv (stepJob j v a out) :=
  jobInv_addResult (jobInv_setCurrent hj v a) hlt _ _ _ _ _

/-- Every snapshot produced by the unit loop, and its final state, satisfy
the invariant, provided the remaining units fit under `total_accounts`. -/
theorem runUnits_inv (f : String → Nat → UnitOutcome) :
    ∀ (units : List (String × Nat)) (j : Job), JobInv j →
      j.completed_accounts + units.length ≤ j.total_accounts →
      (∀ x ∈ (runUnits f j units).trace, JobInv x) ∧
      JobInv (runUnits f j units).final := by
  intro units
  induction units with
  | nil =>
    intro j hj _
    exact ⟨by simp [runUnits], by simpa [runUnits] using hj⟩
  | cons p rest ih =>
    obtain ⟨v, a⟩ := p
    intro j hj hb
    have hlt : j.completed_accounts < j.total_accounts := by
      simp at hb; omega
    cases hctor : (f v a).isCtorRaise with
    | true =>
      obtain ⟨e, hfa⟩ : ∃ e, f v a = .ctorRaise e := by
        cases hfa : f v a with
        | ctorRaise e => exact ⟨e, rfl⟩
        | runReturn po => rw [hfa] at hctor; simp [UnitOutcome.isCtorRaise] at hctor
        | runRaise e => rw [hfa] at hctor; simp [UnitOutcome.isCtorRaise] at hctor
      rw [runUnits_cons_ctor f v a rest j e hfa]
      exact ⟨by simp, hj⟩
    | false =>
      rw [runUnits_cons f v a rest j hctor]
      have hj2 : JobInv (stepJob j v a (f v a)) := jobInv_stepJob hj hlt v a _
      have hb2 : (stepJob j v a (f v a)).completed_accounts + rest.length ≤
          (stepJob j v a (f v a)).total_accounts := by
        rw [stepJob_completed, stepJob_total]
        simp at hb
        omega
      obtain ⟨htr, hfin⟩ := ih _ hj2 hb2
      refine ⟨?_, hfin⟩
      intro x hx
      simp at hx
      rcases hx with rfl | rfl | hmem
      · exact jobInv_setCurrent hj v a
      · exact hj2
      · exact htr _ hmem

/-- C2: At every reachable state of the job registry — i.e. at each snapshot
produced by the sequence of JobManager operations the orchestrator's
background task performs on a freshly created Job, for any mode metadata and
any downloader behavior — every Job satisfies
`0 ≤ completedUnits ≤ totalUnits` and `results.length == completedUnits`. -/
theorem job_snapshots_satisfy_invariant (id : String) (meta : JobMetadata)
    (f : String → Nat → UnitOutcome) (t0 t1 t2 : Nat) :
    ∀ j ∈ run_automation_job (Job.new id meta t0) f t1 t2,
      0 ≤ j.completed_accounts ∧
      j.completed_accounts ≤ j.total_accounts ∧
      j.results.length = j.completed_accounts := by
  intro j hj
  have base : JobInv (Job.new id meta t0) := by
    constructor <;> rfl
  suffices h : JobInv j by exact ⟨Nat.zero_le _, h.1, h.2⟩
  simp only [run_automation_job] at hj
  cases hd : deriveUnits (markStarted (Job.new id meta t0) t1).metadata with
  | error msg =>
    rw [hd] at hj
    simp at hj
    rcases hj with rfl | rfl | rfl
    · exact base
    · exact base
    · exact base
  | ok units =>
    rw [hd] at hj
    have hj2 : JobInv (setTotal (markStarted (Job.new id meta t0) t1) units.length) := by
      constructor
      · simp [setTotal, markStarted, Job.new]
      · simp [setTotal, markStarted, Job.new]
    have hb2 : (setTotal (markStarted (Job.new id meta t0) t1) units.length).completed_accounts
        + units.length ≤
        (setTotal (markStarted (Job.new id meta t0) t1) units.length).total_accounts := by
      simp [setTotal, markStarted, Job.new]
    obtain ⟨htr, hfin⟩ := runUnits_inv f units _ hj2 hb2
    simp at hj
    rcases hj with rfl | rfl | rfl | hmem | rfl
    · exact base
    · exact base
    · exact hj2
    · exact htr _ hmem
    · unfold finishJob
      cases (runUnits f (setTotal (markStarted (Job.new id meta t0) t1) units.length) units).exn
      · exact hfin
      · exact hfin

theorem job_snapshots_satisfy_invariant_witness :
    (Job.new "j" ⟨"single", none, none, none, "local"⟩ 0) ∈
      run_automation_job (Job.new "j" ⟨"single", none, none, none, "local"⟩ 0)
        (fun _ _ => .runReturn none) 1 2 ∧
    0 ≤ (Job.new "j" ⟨"single", none, none, none, "local"⟩ 0).completed_accounts ∧
    (Job.new "j" ⟨"single", none, none, none, "local"⟩ 0).completed_accounts ≤
      (Job.new "j" ⟨"single", none, none, none, "local"⟩ 0).total_accounts ∧
    (Job.new "j" ⟨"single", none, none, none, "local"⟩ 0).results.length =
      (Job.new "j" ⟨"single", none, none, none, "local"⟩ 0).completed_accounts :=
  ⟨by decide,
   job_snapshots_satisfy_invariant "j" ⟨"single", none, none, none, "local"⟩
     (fun _ _ => .runReturn none) 0 1 2 _ (by decide)⟩

/-- When no unit's downloader constructor raises, the loop runs every unit,
records exactly one result per unit in order, lets no exception escape, and
leaves the job status unchanged. -/
theorem runUnits_complete (f : String → Nat → UnitOutcome) :
    ∀ (units : List (String × Nat)) (j : Job),
      (∀ p ∈ units, (f p.1 p.2).isCtorRaise = false) →
      (runUnits f j units).exn = none ∧
      (runUnits f j units).final.results =
        j.results ++ units.map (fun p => expectedResult p.1 p.2 (f p.1 p.2)) ∧
      (runUnits f j units).final.status = j.status := by
  intro units
  induction units with
  | nil => intro j _; simp [runUnits]
  | cons p rest ih =>
    obtain ⟨v, a⟩ := p
    intro j hc
    have hv : (f v a).isCtorRaise = false := hc (v, a) (by simp)
    rw [runUnits_cons f v a rest j hv]
    obtain ⟨h1, h2, h3⟩ :=
      ih (stepJob j v a (f v a)) (fun q hq => hc q (by simp [hq]))
    refine ⟨h1, ?_, ?_⟩
    · rw [h2, stepJob_results]
      simp
    · rw [h3, stepJob_status]

/-- C4: When a batch contains a unit that fails (for example a unit whose
downloader raises a `NavigationError`), `run_automation_job` still executes
every remaining unit, records exactly one result per unit in batch order with
the failing unit's result tagged with its error reason, and the Job
transitions to Completed, not Failed.  (The one proviso the loop imposes is
that the units' downloader constructors do not raise — constructor failures
happen outside the per-unit `try` and are orchestration-level errors.) -/
theorem run_automation_job_partial_failure (id : String) (meta : JobMetadata)
    (f : String → Nat → UnitOutcome) (t0 t1 t2 : Nat)
    (units : List (String × Nat))
    (hu : deriveUnits meta = .ok units)
    (hc : ∀ p ∈ units, (f p.1 p.2).isCtorRaise = false) :
    ∃ fin, (run_automation_job (Job.new id meta t0) f t1 t2).getLast? = some fin ∧
      fin.status = .completed ∧
      fin.results = units.map (fun p => expectedResult p.1 p.2 (f p.1 p.2)) ∧
      (∀ p ∈ units, ∀ e, f p.1 p.2 = .runRaise e →
        (⟨p.1, p.2, "failed", none, some e⟩ : ResultEntry) ∈ fin.results) := by
  have hrun : run_automation_job (Job.new id meta t0) f t1 t2 =
      [Job.new id meta t0, markStarted (Job.new id meta t0) t1,
        setTotal (markStarted (Job.new id meta t0) t1) units.length] ++
        (runUnits f (setTotal (markStarted (Job.new id meta t0) t1) units.length)
          units).trace ++
        [finishJob (runUnits f
          (setTotal (markStarted (Job.new id meta t0) t1) units.length) units) t2] := by
    simp only [run_automation_job]
    rw [show (markStarted (Job.new id meta t0) t1).metadata = meta from rfl, hu]
  rw [hrun]
  obtain ⟨hexn, hres, hstat⟩ := runUnits_complete f units
    (setTotal (markStarted (Job.new id meta t0) t1) units.length) hc
  have hfr : (finishJob (runUnits f
      (setTotal (markStarted (Job.new id meta t0) t1) units.length) units) t2).results =
      units.map (fun p => expectedResult p.1 p.2 (f p.1 p.2)) := by
    simp [finishJob, hexn, markCompleted]
    rw [hres]
    simp [setTotal, markStarted, Job.new]
  refine ⟨finishJob (runUnits f
    (setTotal (markStarted (Job.new id meta t0) t1) units.length) units) t2,
    ?_, ?_, hfr, ?_⟩
  · rw [List.getLast?_concat]
  · simp [finishJob, hexn, markCompleted]
  · intro p hp e he
    rw [hfr]
    have hmem : expectedResult p.1 p.2 (f p.1 p.2) ∈
        units.map (fun q => expectedResult q.1 q.2 (f q.1 q.2)) :=
      List.mem_map_of_mem _ hp
    rw [he] at hmem
    simpa [expectedResult] using hmem

theorem run_automation_job_partial_failure_witness :
    ∃ fin, (run_automation_job
        (Job.new "j" ⟨"all", none, none, none, "local"⟩ 0)
        (fun v a => if v = "rogers" ∧ a = 1 then .runRaise "NavigationError: timeout"
                    else .runReturn (some ("/dl/" ++ v ++ ".pdf"))) 1 2).getLast? =
        some fin ∧
      fin.status = .completed ∧
      fin.results = [("rogers", 0), ("rogers", 1), ("rogers", 2), ("mhydro", 0),
          ("hwater", 0), ("hwater", 1)].map
        (fun p => expectedResult p.1 p.2
          (if p.1 = "rogers" ∧ p.2 = 1 then .runRaise "NavigationError: timeout"
           else .runReturn (some ("/dl/" ++ p.1 ++ ".pdf")))) ∧
      (∀ p ∈ [("rogers", 0), ("rogers", 1), ("rogers", 2), ("mhydro", 0),
          ("hwater", 0), ("hwater", 1)], ∀ e,
        (if p.1 = "rogers" ∧ p.2 = 1 then UnitOutcome.runRaise "NavigationError: timeout"
         else UnitOutcome.runReturn (some ("/dl/" ++ p.1 ++ ".pdf"))) = .runRaise e →
        (⟨p.1, p.2, "failed", none, some e⟩ : ResultEntry) ∈ fin.results) :=
  run_automation_job_partial_failure "j" ⟨"all", none, none, none, "local"⟩
    (fun v a => if v = "rogers" ∧ a = 1 then .runRaise "NavigationError: timeout"
                else .runReturn (some ("/dl/" ++ v ++ ".pdf"))) 0 1 2
    [("rogers", 0), ("rogers", 1), ("rogers", 2), ("mhydro", 0),
     ("hwater", 0), ("hwater", 1)] rfl (by decide)

theorem digitChar_ne_underscore : ∀ k : Nat, digitChar k ≠ '_'
  | 0 => by decide
  | 1 => by decide
  | 2 => by decide
  | 3 => by decide
  | 4 => by decide
  | 5 => by decide
  | 6 => by decide
  | 7 => by decide
  | 8 => by decide
  | 9 => by decide
  | (_ + 10) => show ('?' : Char) ≠ '_' by decide

theorem underscore_not_mem_natDigitsAux (fuel : Nat) :
    ∀ n, '_' ∉ natDigitsAux fuel n := by
  induction fuel with
  | zero => intro n; simp [natDigitsAux]
  | succ f ih =>
    intro n
    simp only [natDigitsAux]
    split
    · intro h
      simp at h
      exact digitChar_ne_underscore n h.symm
    · intro h
      rcases List.mem_append.1 h with h | h
      · exact ih _ h
      · simp at h
        exact digitChar_ne_underscore _ h.symm

theorem natDigitsAux_ne_nil (fuel : Nat) :
    ∀ n, n < fuel → natDigitsAux fuel n ≠ [] := by
  cases fuel with
  | zero => intro n h; omega
  | succ f =>
    intro n _
    simp only [natDigitsAux]
    split
    · simp
    · simp

theorem natDigitsAux_head_ne_zero (fuel : Nat) :
    ∀ n, n < fuel → 1 ≤ n → (natDigitsAux fuel n).head? ≠ some '0' := by
  induction fuel with
  | zero => intro n h; omega
  | succ f ih =>
    intro n hn h1
    simp only [natDigitsAux]
    by_cases h10 : n < 10
    · rw [if_pos h10]
      simp only [List.head?_cons]
      intro h
      simp at h
      interval_cases n <;> simp_all [digitChar]
    · rw [if_neg h10]
      have hdivlt : n / 10 < n := Nat.div_lt_self (by omega) (by omega)
      have hdiv1 : 1 ≤ n / 10 := by
        rw [Nat.le_div_iff_mul_le (by omega)]
        omega
      have hne := natDigitsAux_ne_nil f (n / 10) (by omega)
      obtain ⟨x, xt, hx⟩ := List.exists_cons_of_ne_nil hne
      have hh := ih (n / 10) (by omega) hdiv1
      rw [hx] at hh ⊢
      simpa using hh

/-- The day rendered by `%-d` has no leading zero. -/
theorem natDigits_no_leading_zero (n : Nat) (h : 1 ≤ n) :
    (natDigits n).head? ≠ some '0' :=
  natDigitsAux_head_ne_zero (n + 1) n (by omega) h

theorem underscore_not_mem_monthAbbrev (m : Nat) :
    '_' ∉ (monthAbbrev m).data := by
  unfold monthAbbrev
  by_cases hk : m - 1 < 12
  · have h12 : monthAbbrevs.length = 12 := rfl
    set k := m - 1 with hkdef
    clear_value k
    interval_cases k <;> decide
  · rw [List.getD_eq_default]
    · simp
    · simp [monthAbbrevs]
      omega

theorem underscore_not_mem_strftimeDMY (d : PyDate) :
    '_' ∉ strftimeDMY d := by
  unfold strftimeDMY natDigits
  intro h
  rcases List.mem_append.1 h with h | h
  · exact underscore_not_mem_natDigitsAux _ _ h
  · rcases List.mem_cons.1 h with h | h
    · exact absurd h (by decide)
    · rcases List.mem_append.1 h with h | h
      · exact underscore_not_mem_monthAbbrev _ h
      · rcases List.mem_cons.1 h with h | h
        · exact absurd h (by decide)
        · exact underscore_not_mem_natDigitsAux _ _ h

theorem splitUnders_no_underscore : ∀ (l : List Char), '_' ∉ l →
    splitUnders l = [l] := by
  intro l
  induction l with
  | nil => intro _; rfl
  | cons c cs ih =>
    intro h
    have hc : c ≠ '_' := fun hh => h (by simp [hh])
    have hcs : '_' ∉ cs := fun hh => h (by simp [hh])
    simp only [splitUnders]
    rw [if_neg hc, ih hcs]

theorem splitUnders_append : ∀ (xs ys : List Char), '_' ∉ xs →
    splitUnders (xs ++ '_' :: ys) = xs :: splitUnders ys := by
  intro xs
  induction xs with
  | nil => intro ys _; simp [splitUnders]
  | cons c cs ih =>
    intro ys h
    have hc : c ≠ '_' := fun hh => h (by simp [hh])
    have hcs : '_' ∉ cs := fun hh => h (by simp [hh])
    simp only [List.cons_append, splitUnders, List.append_eq]
    rw [if_neg hc, ih ys hcs]

theorem dropDotPdf_append (xs : List Char) :
    dropDotPdf (xs ++ ['.', 'p', 'd', 'f']) = some xs := by
  unfold dropDotPdf
  have h1 : (xs ++ ['.', 'p', 'd', 'f']).length = xs.length + 4 := by
    rw [List.length_append]
    rfl
  rw [h1]
  have h2 : xs.length + 4 - 4 = xs.length := by omega
  rw [h2, List.drop_left, List.take_left]
  rw [if_pos ⟨by omega, rfl⟩]

/-- C7: For every account index with configured metadata and every non-`None`
invoice date, `generate_file_name` returns the string
`{vendorCode}_{accountNumber}_{day-month-year with no leading zero on the
day}_{glAccount}.pdf`, and repeated calls with the same `(metadata, date)`
inputs return the identical string. -/
theorem generate_file_name_format (tbl : List (Nat × AccountMeta))
    (account_index : Nat) (meta : AccountMeta) (d now : PyDate)
    (isWindows : Bool) (h : tbl.lookup account_index = some meta) :
    generate_file_name tbl account_index (some d) now isWindows =
      .ok (buildFileName meta (strftimeDMY d)) ∧
    (1 ≤ d.day → (natDigits d.day).head? ≠ some '0') ∧
    generate_file_name tbl account_index (some d) now isWindows =
      generate_file_name tbl account_index (some d) now isWindows := by
  refine ⟨?_, fun hd => natDigits_no_leading_zero d.day hd, rfl⟩
  simp [generate_file_name, h]

theorem generate_file_name_format_witness :
    ROGERS_ACCOUNT_METADATA.lookup 0 =
      some ⟨"ROGE04", "3509", "68050-YYT-11-410"⟩ ∧
    generate_file_name ROGERS_ACCOUNT_METADATA 0 (some ⟨2025, 12, 5⟩)
        ⟨2026, 1, 1⟩ false =
      .ok (buildFileName ⟨"ROGE04", "3509", "68050-YYT-11-410"⟩
        (strftimeDMY ⟨2025, 12, 5⟩)) ∧
    (1 ≤ (5 : Nat) → (natDigits 5).head? ≠ some '0') :=
  ⟨by decide,
   (generate_file_name_format ROGERS_ACCOUNT_METADATA 0
      ⟨"ROGE04", "3509", "68050-YYT-11-410"⟩ ⟨2025, 12, 5⟩ ⟨2026, 1, 1⟩ false
      (by decide)).1,
   fun _ => natDigits_no_leading_zero 5 (by decide)⟩

theorem parse_buildFileName (meta : AccountMeta) (ds : List Char)
    (hv : '_' ∉ meta.vendor_number.data)
    (ha : '_' ∉ meta.account_number.data)
    (hg : '_' ∉ meta.gl_account.data) (hd : '_' ∉ ds) :
    parse_file_name (buildFileName meta ds) =
      some (meta.vendor_number, meta.account_number, meta.gl_account) := by
  have hgp : '_' ∉ meta.gl_account.data ++ ".pdf".data := by
    intro h
    rcases List.mem_append.1 h with h | h
    · exact hg h
    · simp at h
  unfold parse_file_name buildFileName
  rw [show (String.mk (meta.vendor_number.data ++ '_' ::
        (meta.account_number.data ++ '_' ::
          (ds ++ '_' :: (meta.gl_account.data ++ ".pdf".data))))).data =
      meta.vendor_number.data ++ '_' ::
        (meta.account_number.data ++ '_' ::
          (ds ++ '_' :: (meta.gl_account.data ++ ".pdf".data))) from rfl]
  rw [splitUnders_append _ _ hv, splitUnders_append _ _ ha,
      splitUnders_append _ _ hd, splitUnders_no_underscore _ hgp]
  rw [show meta.gl_account.data ++ ".pdf".data =
      meta.gl_account.data ++ ['.', 'p', 'd', 'f'] from rfl]
  simp only [dropDotPdf_append]

/-- C8: For every configured account metadata entry and every date, splitting
the basename of the produced final filename at its underscores — the inverse
of the filename builder — recovers the original
`(vendorCode, accountNumber, glAccount)` triple. -/
theorem filename_roundtrip (meta : AccountMeta)
    (hm : meta ∈ allConfiguredMetadata) (d : PyDate) :
    parse_file_name (buildFileName meta (strftimeDMY d)) =
      some (meta.vendor_number, meta.account_number, meta.gl_account) := by
  have hd := underscore_not_mem_strftimeDMY d
  fin_cases hm <;>
    exact parse_buildFileName _ _ (by decide) (by decide) (by decide) hd

theorem filename_roundtrip_witness :
    parse_file_name (buildFileName ⟨"ROGE04", "3509", "68050-YYT-11-410"⟩
        (strftimeDMY ⟨2025, 12, 5⟩)) =
      some ("ROGE04", "3509", "68050-YYT-11-410") :=
  filename_roundtrip ⟨"ROGE04", "3509", "68050-YYT-11-410"⟩ (by decide)
    ⟨2025, 12, 5⟩

end InvoiceRetrieval
